import Mathlib

/-!
Shallow embedding of the `EnergyToken` contract (ERC-1155 incentive ledger
with temporal decay) and proofs about its decay arithmetic and mutation
operations.  Addresses and token ids are modelled as `Nat`; `uint256`
arithmetic is `Nat` arithmetic (Solidity 0.8 reverts on overflow, so every
value actually returned matches the `Nat` computation).  A revert is
modelled as `Except.error`.
-/

namespace EnergyToken

/-- Token type constants from the contract. -/
def EFFICIENCY_TOKEN : Nat := 0

def COMPLIANCE_TOKEN : Nat := 1

def INNOVATION_TOKEN : Nat := 2

/-- One day in seconds (Solidity `1 days`). -/
def ONE_DAY : Nat := 86400

/-- `struct OperatorData { uint256 lastUpdate; uint256 decayRate; }`.
A mapping entry that was never written has both fields zero; the contract
treats `lastUpdate == 0` as "no profile". -/
structure OperatorData where
  lastUpdate : Nat
  decayRate : Nat
deriving Repr, DecidableEq

/-- Contract state: the `Ownable` owner, the ERC-1155 balance mapping
`balances account tokenId`, and the per-operator decay data. -/
structure State where
  owner : Nat
  balances : Nat → Nat → Nat
  operatorData : Nat → OperatorData

/-- Error taxonomy for the `require` failures (the spec names the
revert reasons `InvalidAssetType`, `InvalidAmount`, `InvalidRate`,
`Forbidden`). -/
inductive Err where
  | InvalidAssetType
  | InvalidAmount
  | InvalidRate
  | Forbidden
deriving Repr, DecidableEq

/-- `balanceOf(operator, tokenId)` (ERC-1155 read). -/
def balanceOf (s : State) (operator tokenId : Nat) : Nat :=
  s.balances operator tokenId

/-- The compounding loop of `getEffectiveBalance`:
`decayFactor = decayRate; for (i = 1; i < daysSinceUpdate; i++)
decayFactor = decayFactor * decayRate / 10000;`.
`decaySteps rate n` is the factor after the loop body has run `n` times,
so the factor computed for `daysSinceUpdate = d ≥ 1` is
`decaySteps rate (d - 1)`. -/
def decaySteps (rate : Nat) : Nat → Nat
  | 0 => rate
  | n + 1 => decaySteps rate n * rate / 10000

/-- `getEffectiveBalance(operator, tokenId)`; `now` is `block.timestamp`.
Mirrors the contract body line by line. -/
def getEffectiveBalance (s : State) (operator tokenId now : Nat) : Nat :=
  if (s.operatorData operator).lastUpdate = 0 ∨ balanceOf s operator tokenId = 0 then
    0
  else
    let rawBalance := balanceOf s operator tokenId
    let daysSinceUpdate := (now - (s.operatorData operator).lastUpdate) / ONE_DAY
    if daysSinceUpdate = 0 then
      rawBalance
    else
      let decayFactor := decaySteps (s.operatorData operator).decayRate (daysSinceUpdate - 1)
      rawBalance * decayFactor / 10000

/-- `_mint(operator, tokenId, amount, "")`: adds to one balance slot. -/
def _mint (s : State) (operator tokenId amount : Nat) : State :=
  { s with
      balances :=
        Function.update s.balances operator
          (Function.update (s.balances operator) tokenId
            (s.balances operator tokenId + amount)) }

/-- `_burn(operator, tokenId, amount)`: subtracts from one balance slot
(the contract only burns amounts bounded by the current balance). -/
def _burn (s : State) (operator tokenId amount : Nat) : State :=
  { s with
      balances :=
        Function.update s.balances operator
          (Function.update (s.balances operator) tokenId
            (s.balances operator tokenId - amount)) }

/-- `_applyDecay(operator, tokenId)`: burn the raw balance down to the
effective balance when the latter is smaller. -/
def _applyDecay (s : State) (operator tokenId now : Nat) : State :=
  let effectiveBalance := getEffectiveBalance s operator tokenId now
  let currentBalance := balanceOf s operator tokenId
  if effectiveBalance < currentBalance then
    _burn s operator tokenId (currentBalance - effectiveBalance)
  else
    s

/-- Overwrite the data slot of one operator. -/
def setOperatorData (s : State) (operator : Nat) (d : OperatorData) : State :=
  { s with operatorData := Function.update s.operatorData operator d }

/-- The success path of `awardTokens`: lazily create the profile with
the 9990 default rate, or apply decay to the awarded token only; mint;
set `lastUpdate = now` (keeping the stored decay rate). -/
def awardCommit (s : State) (operator tokenId amount now : Nat) : State :=
  let s1 :=
    if (s.operatorData operator).lastUpdate = 0 then
      setOperatorData s operator ⟨now, 9990⟩
    else
      _applyDecay s operator tokenId now
  let s2 := _mint s1 operator tokenId amount
  setOperatorData s2 operator ⟨now, (s2.operatorData operator).decayRate⟩

/-- `awardTokens(operator, tokenId, amount)` called by `caller` at time
`now`.  The `onlyOwner` modifier runs first, then the two `require`s,
then the commit sequence `awardCommit`. -/
def awardTokens (s : State) (caller operator tokenId amount now : Nat) :
    Except Err State :=
  if caller ≠ s.owner then
    .error .Forbidden
  else if ¬ tokenId ≤ INNOVATION_TOKEN then
    .error .InvalidAssetType
  else if ¬ 0 < amount then
    .error .InvalidAmount
  else
    .ok (awardCommit s operator tokenId amount now)

/-- `setDecayRate(operator, decayRate)` called by `caller` at time `now`.
On an existing profile: `for (i = 0; i <= INNOVATION_TOKEN; i++)
_applyDecay(operator, i);` then store the new rate and `lastUpdate`. -/
def setDecayRate (s : State) (caller operator decayRate now : Nat) :
    Except Err State :=
  if caller ≠ s.owner then
    .error .Forbidden
  else if ¬ decayRate ≤ 10000 then
    .error .InvalidRate
  else if (s.operatorData operator).lastUpdate = 0 then
    .ok (setOperatorData s operator ⟨now, decayRate⟩)
  else
    let s1 := _applyDecay (_applyDecay (_applyDecay s operator 0 now) operator 1 now)
      operator 2 now
    .ok (setOperatorData s1 operator ⟨now, decayRate⟩)

/-- A reverted call leaves the caller with the pre-call state. -/
def runExcept (s : State) (r : Except Err State) : State :=
  match r with
  | .ok s1 => s1
  | .error _ => s

/-- Concrete ledger for witnesses: owner `0`; operator `1` holds 1000
units of tokens 0 and 1, with decay profile rate 9000 set at time 100. -/
def sampleState : State where
  owner := 0
  balances := fun p t => if p = 1 ∧ (t = 0 ∨ t = 1) then 1000 else 0
  operatorData := fun p => if p = 1 then ⟨100, 9000⟩ else ⟨0, 0⟩

/-- Concrete ledger where operator `1` holds 5 units of token 0 but has
no decay profile (`lastUpdate = 0`), as after a bare ERC-1155 transfer. -/
def noProfileState : State where
  owner := 0
  balances := fun p t => if p = 1 ∧ t = 0 then 5 else 0
  operatorData := fun _ => ⟨0, 0⟩

/-- Concrete ledger where operator `1` holds a single unit of token 0
under a 9000 decay profile set at time 100. -/
def tinyState : State where
  owner := 0
  balances := fun p t => if p = 1 ∧ t = 0 then 1 else 0
  operatorData := fun p => if p = 1 then ⟨100, 9000⟩ else ⟨0, 0⟩

/-- Each compounding step can only shrink the factor (truncating division
by 10000 after multiplying by `rate ≤ 10000`). -/
theorem decaySteps_succ_le (rate : Nat) (h : rate ≤ 10000) (n : Nat) :
    decaySteps rate (n + 1) ≤ decaySteps rate n := by
  show decaySteps rate n * rate / 10000 ≤ decaySteps rate n
  calc decaySteps rate n * rate / 10000
      ≤ decaySteps rate n * 10000 / 10000 :=
        Nat.div_le_div_right (Nat.mul_le_mul_left _ h)
    _ = decaySteps rate n := by simp

/-- The compounded factor never exceeds 10000 when the rate is within
basis-point range. -/
theorem decaySteps_le (rate : Nat) (h : rate ≤ 10000) (n : Nat) :
    decaySteps rate n ≤ 10000 := by
  induction n with
  | zero => exact h
  | succ n ih => exact le_trans (decaySteps_succ_le rate h n) ih

/-- The compounded factor is antitone in the day count. -/
theorem decaySteps_antitone (rate : Nat) (h : rate ≤ 10000) {m n : Nat}
    (hmn : m ≤ n) : decaySteps rate n ≤ decaySteps rate m := by
  induction n with
  | zero => cases Nat.le_zero.mp hmn; exact le_refl _
  | succ n ih =>
      rcases Nat.lt_or_ge m (n + 1) with hlt | hge
      · exact le_trans (decaySteps_succ_le rate h n) (ih (Nat.lt_succ_iff.mp hlt))
      · cases le_antisymm hmn hge
        exact le_refl _

/-- Dividing by 10000 after multiplying by a factor of at most 10000
cannot grow a value. -/
theorem mul_factor_div_le (raw factor : Nat) (h : factor ≤ 10000) :
    raw * factor / 10000 ≤ raw :=
  le_trans (Nat.div_le_div_right (Nat.mul_le_mul_left raw h)) (le_of_eq (by simp))

/-- The effective balance never exceeds the raw balance (helper form,
shared by several results below). -/
theorem effective_le_raw_aux (s : State) (operator tokenId now : Nat)
    (h : (s.operatorData operator).decayRate ≤ 10000) :
    getEffectiveBalance s operator tokenId now ≤ balanceOf s operator tokenId := by
  simp only [getEffectiveBalance]
  split
  · exact Nat.zero_le _
  · split
    · exact Nat.le_refl _
    · exact mul_factor_div_le _ _ (decaySteps_le _ h _)

/-- With an existing profile and zero whole elapsed days the query
returns the raw balance (helper form). -/
theorem effective_days_zero (s : State) (operator tokenId now : Nat)
    (hprof : (s.operatorData operator).lastUpdate ≠ 0)
    (hd : (now - (s.operatorData operator).lastUpdate) / ONE_DAY = 0) :
    getEffectiveBalance s operator tokenId now = balanceOf s operator tokenId := by
  by_cases hb : balanceOf s operator tokenId = 0
  · simp [getEffectiveBalance, hb]
  · simp only [getEffectiveBalance, hd]
    rw [if_neg (by simp [hprof, hb])]
    simp

/-- With an existing profile and `d ≥ 1` whole elapsed days the query
returns `rawBalance * decaySteps rate (d - 1) / 10000` (helper form). -/
theorem effective_days_formula (s : State) (operator tokenId now d : Nat)
    (hprof : (s.operatorData operator).lastUpdate ≠ 0)
    (hd : (now - (s.operatorData operator).lastUpdate) / ONE_DAY = d)
    (h1 : 1 ≤ d) :
    getEffectiveBalance s operator tokenId now =
      balanceOf s operator tokenId *
        decaySteps (s.operatorData operator).decayRate (d - 1) / 10000 := by
  by_cases hb : balanceOf s operator tokenId = 0
  · simp [getEffectiveBalance, hb]
  · simp only [getEffectiveBalance, hd]
    rw [if_neg (by simp [hprof, hb]), if_neg (by omega)]

/-- C1: for every account, asset type, decay profile with `decayRate` in
`[0, 10000]` and elapsed time, the effective balance returned by
`getEffectiveBalance` is at most the stored raw balance — decay never
increases a balance. -/
theorem c1_effective_le_raw (s : State) (operator tokenId now : Nat)
    (h : (s.operatorData operator).decayRate ≤ 10000) :
    getEffectiveBalance s operator tokenId now ≤ balanceOf s operator tokenId :=
  effective_le_raw_aux s operator tokenId now h

/-- Witness for C1: concrete state, rate 9000, one elapsed day. -/
theorem c1_effective_le_raw_witness :
    (sampleState.operatorData 1).decayRate ≤ 10000 ∧
    getEffectiveBalance sampleState 1 0 86500 ≤ balanceOf sampleState 1 0 :=
  ⟨by decide, c1_effective_le_raw sampleState 1 0 86500 (by decide)⟩

/-- C2: with an existing profile and `d ≥ 1` whole elapsed days, the
effective balance is `rawBalance * factor / 10000` where the factor is
the stepwise truncating compounding `decaySteps rate (d - 1)` (the loop
body runs once per elapsed day beyond the first); in particular a raw
balance of 1000 at rate 9000 yields 900 after exactly one day and 810
after exactly two. -/
theorem c2_stepwise_compounding (s : State) (operator tokenId now d : Nat)
    (hprof : (s.operatorData operator).lastUpdate ≠ 0)
    (hd : (now - (s.operatorData operator).lastUpdate) / ONE_DAY = d)
    (h1 : 1 ≤ d) :
    getEffectiveBalance s operator tokenId now =
      balanceOf s operator tokenId *
        decaySteps (s.operatorData operator).decayRate (d - 1) / 10000 ∧
    (balanceOf s operator tokenId = 1000 →
      (s.operatorData operator).decayRate = 9000 →
      (d = 1 → getEffectiveBalance s operator tokenId now = 900) ∧
      (d = 2 → getEffectiveBalance s operator tokenId now = 810)) := by
  have hmain := effective_days_formula s operator tokenId now d hprof hd h1
  refine ⟨hmain, fun hb1000 hr9000 => ⟨fun hd1 => ?_, fun hd2 => ?_⟩⟩
  · rw [hmain, hb1000, hr9000, hd1]
    decide
  · rw [hmain, hb1000, hr9000, hd2]
    decide

/-- Witness for C2: the concrete state realizes Scenario A (900 after one
day). -/
theorem c2_stepwise_compounding_witness :
    getEffectiveBalance sampleState 1 0 86500 = 900 := by
  have h := c2_stepwise_compounding sampleState 1 0 86500 1 (by decide) (by decide)
    (by decide)
  exact (h.2 (by decide) (by decide)).1 rfl

/-- C5: with an existing profile and strictly less than one full elapsed
day (`daysSinceUpdate = 0`), the effective balance equals the raw
balance unchanged. -/
theorem c5_fractional_day_noop (s : State) (operator tokenId now : Nat)
    (hprof : (s.operatorData operator).lastUpdate ≠ 0)
    (hd : (now - (s.operatorData operator).lastUpdate) / ONE_DAY = 0) :
    getEffectiveBalance s operator tokenId now = balanceOf s operator tokenId :=
  effective_days_zero s operator tokenId now hprof hd

/-- Witness for C5: 100 seconds of elapsed time cause no decay. -/
theorem c5_fractional_day_noop_witness :
    getEffectiveBalance sampleState 1 0 200 = balanceOf sampleState 1 0 :=
  c5_fractional_day_noop sampleState 1 0 200 (by decide) (by decide)

/-- C3 counterexample: operator 1 has no decay profile (`lastUpdate = 0`)
and a positive raw balance of 5, yet the query returns 0, not the raw
balance — the first branch of `getEffectiveBalance` returns 0 for
accounts that were never written. -/
theorem c3_no_profile_counterexample :
    balanceOf noProfileState 1 0 = 5 ∧
    (noProfileState.operatorData 1).lastUpdate = 0 ∧
    getEffectiveBalance noProfileState 1 0 1000 ≠ balanceOf noProfileState 1 0 := by
  decide

/-- C3 amended: for an account with no decay profile the effective
balance query returns 0 — which coincides with the raw balance only when
the raw balance is itself zero. -/
theorem c3_no_profile_returns_zero (s : State) (operator tokenId now : Nat)
    (h : (s.operatorData operator).lastUpdate = 0) :
    getEffectiveBalance s operator tokenId now = 0 := by
  simp [getEffectiveBalance, h]

/-- Witness for the amended C3 at the concrete uninitialized state. -/
theorem c3_no_profile_returns_zero_witness :
    getEffectiveBalance noProfileState 1 0 1000 = 0 :=
  c3_no_profile_returns_zero noProfileState 1 0 1000 (by decide)

/-- C4 counterexample: a raw balance of 1 at rate 9000 after exactly one
elapsed day gives effective balance 0 even though the compounded factor
is 9000, not 0 — truncation of `1 * 9000 / 10000` reaches zero without
factor underflow. -/
theorem c4_nonzero_factor_counterexample :
    0 < balanceOf tinyState 1 0 ∧
    (tinyState.operatorData 1).lastUpdate ≠ 0 ∧
    (86500 - (tinyState.operatorData 1).lastUpdate) / ONE_DAY = 1 ∧
    decaySteps (tinyState.operatorData 1).decayRate 0 ≠ 0 ∧
    getEffectiveBalance tinyState 1 0 86500 = 0 := by
  decide

/-- C4 amended: for a positive raw balance under an existing profile
with `d ≥ 1` elapsed days, the effective balance is exactly zero iff
`rawBalance * factor < 10000`; this includes factor underflow to zero
but also small positive raw balances, and with
`rawBalance * factor ≥ 10000` the effective balance is nonzero. -/
theorem c4_zero_iff_product_small (s : State) (operator tokenId now d : Nat)
    (hprof : (s.operatorData operator).lastUpdate ≠ 0)
    (_hraw : 0 < balanceOf s operator tokenId)
    (hd : (now - (s.operatorData operator).lastUpdate) / ONE_DAY = d)
    (h1 : 1 ≤ d) :
    (getEffectiveBalance s operator tokenId now = 0 ↔
      balanceOf s operator tokenId *
        decaySteps (s.operatorData operator).decayRate (d - 1) < 10000) := by
  rw [effective_days_formula s operator tokenId now d hprof hd h1]
  exact Nat.div_eq_zero_iff (by norm_num)

/-- Witness for the amended C4: raw balance 1, rate 9000, one day. -/
theorem c4_zero_iff_product_small_witness :
    getEffectiveBalance tinyState 1 0 86500 = 0 :=
  (c4_zero_iff_product_small tinyState 1 0 86500 1 (by decide) (by decide)
    (by decide) (by decide)).mpr (by decide)

/-- C6: for a fixed raw balance and decay rate below 10000, the
effective balance is non-increasing in the elapsed time: querying at a
later timestamp never returns more. -/
theorem c6_effective_antitone (s : State) (operator tokenId t1 t2 : Nat)
    (hrate : (s.operatorData operator).decayRate < 10000)
    (h12 : t1 ≤ t2) :
    getEffectiveBalance s operator tokenId t2 ≤
      getEffectiveBalance s operator tokenId t1 := by
  by_cases hprof : (s.operatorData operator).lastUpdate = 0
  · simp [getEffectiveBalance, hprof]
  by_cases hb : balanceOf s operator tokenId = 0
  · simp [getEffectiveBalance, hb]
  have hdle : (t1 - (s.operatorData operator).lastUpdate) / ONE_DAY ≤
      (t2 - (s.operatorData operator).lastUpdate) / ONE_DAY :=
    Nat.div_le_div_right (Nat.sub_le_sub_right h12 _)
  by_cases hd1 : (t1 - (s.operatorData operator).lastUpdate) / ONE_DAY = 0
  · rw [effective_days_zero s operator tokenId t1 hprof hd1]
    exact effective_le_raw_aux s operator tokenId t2 (le_of_lt hrate)
  · have h1 : 1 ≤ (t1 - (s.operatorData operator).lastUpdate) / ONE_DAY :=
      Nat.one_le_iff_ne_zero.mpr hd1
    rw [effective_days_formula s operator tokenId t1 _ hprof rfl h1,
      effective_days_formula s operator tokenId t2 _ hprof rfl (le_trans h1 hdle)]
    exact Nat.div_le_div_right (Nat.mul_le_mul_left _
      (decaySteps_antitone _ (le_of_lt hrate) (by omega)))

/-- Witness for C6: one versus two elapsed days at rate 9000. -/
theorem c6_effective_antitone_witness :
    getEffectiveBalance sampleState 1 0 172900 ≤
      getEffectiveBalance sampleState 1 0 86500 :=
  c6_effective_antitone sampleState 1 0 86500 172900 (by decide) (by decide)

/-- `_mint` leaves the operator data untouched. -/
theorem _mint_operatorData (s : State) (operator tokenId amount : Nat) :
    (_mint s operator tokenId amount).operatorData = s.operatorData := rfl

/-- `_mint` adds exactly `amount` to the targeted balance slot. -/
theorem _mint_balance_self (s : State) (operator tokenId amount : Nat) :
    balanceOf (_mint s operator tokenId amount) operator tokenId =
      balanceOf s operator tokenId + amount := by
  simp [balanceOf, _mint]

/-- `_mint` leaves every other balance slot untouched. -/
theorem _mint_balance_frame (s : State) (operator tokenId amount p t : Nat)
    (h : p ≠ operator ∨ t ≠ tokenId) :
    balanceOf (_mint s operator tokenId amount) p t = balanceOf s p t := by
  rcases h with h | h
  · simp [balanceOf, _mint, Function.update_noteq h]
  · by_cases hp : p = operator
    · subst hp
      simp [balanceOf, _mint, Function.update_noteq h]
    · simp [balanceOf, _mint, Function.update_noteq hp]

/-- `_burn` leaves the operator data untouched. -/
theorem _burn_operatorData (s : State) (operator tokenId amount : Nat) :
    (_burn s operator tokenId amount).operatorData = s.operatorData := rfl

/-- `_applyDecay` leaves the operator data untouched. -/
theorem _applyDecay_operatorData (s : State) (operator tokenId now : Nat) :
    (_applyDecay s operator tokenId now).operatorData = s.operatorData := by
  simp only [_applyDecay]
  split <;> rfl

/-- When the effective balance does not exceed the raw balance,
`_applyDecay` sets the targeted slot exactly to the effective balance. -/
theorem _applyDecay_balance_self (s : State) (operator tokenId now : Nat)
    (h : getEffectiveBalance s operator tokenId now ≤ balanceOf s operator tokenId) :
    balanceOf (_applyDecay s operator tokenId now) operator tokenId =
      getEffectiveBalance s operator tokenId now := by
  simp only [_applyDecay]
  split
  · rename_i hlt
    simp only [balanceOf, _burn, Function.update_same] at *
    omega
  · rename_i hge
    simp only [balanceOf] at *
    omega

/-- `_applyDecay` leaves every other balance slot untouched. -/
theorem _applyDecay_balance_frame (s : State) (operator tokenId now p t : Nat)
    (h : p ≠ operator ∨ t ≠ tokenId) :
    balanceOf (_applyDecay s operator tokenId now) p t = balanceOf s p t := by
  simp only [_applyDecay]
  split
  · rcases h with h | h
    · simp [balanceOf, _burn, Function.update_noteq h]
    · by_cases hp : p = operator
      · subst hp
        simp [balanceOf, _burn, Function.update_noteq h]
      · simp [balanceOf, _burn, Function.update_noteq hp]
  · rfl

/-- `setOperatorData` leaves all balances untouched. -/
theorem setOperatorData_balances (s : State) (operator : Nat) (d : OperatorData)
    (p t : Nat) : balanceOf (setOperatorData s operator d) p t = balanceOf s p t := rfl

/-- `setOperatorData` stores the new record at the targeted operator. -/
theorem setOperatorData_self (s : State) (operator : Nat) (d : OperatorData) :
    (setOperatorData s operator d).operatorData operator = d := by
  simp [setOperatorData]

/-- `getEffectiveBalance` only reads the targeted balance slot and the
data record of the operator itself. -/
theorem getEffectiveBalance_congr (s1 s2 : State) (operator tokenId now : Nat)
    (hb : balanceOf s1 operator tokenId = balanceOf s2 operator tokenId)
    (hod : s1.operatorData operator = s2.operatorData operator) :
    getEffectiveBalance s1 operator tokenId now =
      getEffectiveBalance s2 operator tokenId now := by
  simp only [getEffectiveBalance, hb, hod]

/-- The rate-change loop `for (i = 0; i <= 2; i++) _applyDecay(...)`:
after the three calls every token slot of the operator holds its
effective balance computed in the pre-loop state, and the operator data
is untouched. -/
theorem applyDecayAll_spec (s : State) (operator now : Nat)
    (h : (s.operatorData operator).decayRate ≤ 10000) :
    (∀ t, t ≤ 2 →
      balanceOf (_applyDecay (_applyDecay (_applyDecay s operator 0 now)
          operator 1 now) operator 2 now) operator t =
        getEffectiveBalance s operator t now) ∧
    (_applyDecay (_applyDecay (_applyDecay s operator 0 now) operator 1 now)
        operator 2 now).operatorData = s.operatorData := by
  have hodA : (_applyDecay s operator 0 now).operatorData = s.operatorData :=
    _applyDecay_operatorData s operator 0 now
  have hodB : (_applyDecay (_applyDecay s operator 0 now) operator 1 now).operatorData
      = s.operatorData := by
    rw [_applyDecay_operatorData, hodA]
  have hodC : (_applyDecay (_applyDecay (_applyDecay s operator 0 now) operator 1 now)
      operator 2 now).operatorData = s.operatorData := by
    rw [_applyDecay_operatorData, hodB]
  refine ⟨fun t ht => ?_, hodC⟩
  interval_cases t
  · rw [_applyDecay_balance_frame _ operator 2 now operator 0 (Or.inr (by decide)),
      _applyDecay_balance_frame _ operator 1 now operator 0 (Or.inr (by decide))]
    exact _applyDecay_balance_self s operator 0 now
      (effective_le_raw_aux s operator 0 now h)
  · rw [_applyDecay_balance_frame _ operator 2 now operator 1 (Or.inr (by decide))]
    have hcongr : getEffectiveBalance (_applyDecay s operator 0 now) operator 1 now =
        getEffectiveBalance s operator 1 now :=
      getEffectiveBalance_congr _ s operator 1 now
        (_applyDecay_balance_frame s operator 0 now operator 1 (Or.inr (by decide)))
        (by rw [hodA])
    rw [_applyDecay_balance_self _ operator 1 now
      (by
        rw [hcongr, _applyDecay_balance_frame s operator 0 now operator 1
          (Or.inr (by decide))]
        exact effective_le_raw_aux s operator 1 now h)]
    exact hcongr
  · have hcongr : getEffectiveBalance (_applyDecay (_applyDecay s operator 0 now)
        operator 1 now) operator 2 now = getEffectiveBalance s operator 2 now :=
      getEffectiveBalance_congr _ s operator 2 now
        (by
          rw [_applyDecay_balance_frame _ operator 1 now operator 2 (Or.inr (by decide)),
            _applyDecay_balance_frame s operator 0 now operator 2 (Or.inr (by decide))])
        (by rw [hodB])
    rw [_applyDecay_balance_self _ operator 2 now
      (by
        rw [hcongr, _applyDecay_balance_frame _ operator 1 now operator 2
          (Or.inr (by decide)), _applyDecay_balance_frame s operator 0 now operator 2
          (Or.inr (by decide))]
        exact effective_le_raw_aux s operator 2 now h)]
    exact hcongr

/-- C7: a successful `setDecayRate` on an account with an existing
profile first commits decay reconciliation for all three asset types
under the old rate (each raw balance drops to its pre-call effective
balance) and only then stores the new rate with `lastUpdate = now`. -/
theorem c7_setDecayRate_reconciles_all (s : State)
    (caller operator newRate now : Nat)
    (hcaller : caller = s.owner)
    (hprof : (s.operatorData operator).lastUpdate ≠ 0)
    (holdrate : (s.operatorData operator).decayRate ≤ 10000)
    (hrate : newRate ≤ 10000) :
    ∃ s1, setDecayRate s caller operator newRate now = .ok s1 ∧
      (∀ t, t ≤ 2 → balanceOf s1 operator t = getEffectiveBalance s operator t now) ∧
      s1.operatorData operator = ⟨now, newRate⟩ := by
  have hspec := applyDecayAll_spec s operator now holdrate
  refine ⟨setOperatorData (_applyDecay (_applyDecay (_applyDecay s operator 0 now)
    operator 1 now) operator 2 now) operator ⟨now, newRate⟩, ?_, fun t ht => ?_, ?_⟩
  · simp only [setDecayRate]
    rw [if_neg (by simp [hcaller]), if_neg (not_not_intro hrate), if_neg hprof]
  · rw [setOperatorData_balances]
    exact hspec.1 t ht
  · exact setOperatorData_self _ operator _

/-- Witness for C7: concrete rate change from 9000 to 5000 after one
elapsed day reconciles both held balances down to 900 and stores the
new profile. -/
theorem c7_setDecayRate_reconciles_all_witness :
    balanceOf (runExcept sampleState (setDecayRate sampleState 0 1 5000 86500)) 1 0
      = 900 ∧
    balanceOf (runExcept sampleState (setDecayRate sampleState 0 1 5000 86500)) 1 1
      = 900 ∧
    (runExcept sampleState (setDecayRate sampleState 0 1 5000 86500)).operatorData 1
      = ⟨86500, 5000⟩ := by
  obtain ⟨s1, hok, hbal, hod⟩ := c7_setDecayRate_reconciles_all sampleState 0 1 5000
    86500 (by decide) (by decide) (by decide) (by decide)
  rw [show runExcept sampleState (setDecayRate sampleState 0 1 5000 86500) = s1 from
    by rw [hok]; rfl]
  exact ⟨(hbal 0 (by decide)).trans (by decide), (hbal 1 (by decide)).trans (by decide),
    hod⟩

/-- C8: every precondition violation — wrong caller, asset type outside
0..2, zero amount, rate above 10000 — makes the operation return the
matching error synchronously, and a reverted call leaves the entire
ledger state exactly as it was, with no half-applied mutation. -/
theorem c8_errors_no_mutation (s : State)
    (caller operator tokenId amount rate now : Nat) :
    (caller ≠ s.owner →
      awardTokens s caller operator tokenId amount now = .error .Forbidden ∧
      runExcept s (awardTokens s caller operator tokenId amount now) = s) ∧
    (caller = s.owner → 2 < tokenId →
      awardTokens s caller operator tokenId amount now = .error .InvalidAssetType ∧
      runExcept s (awardTokens s caller operator tokenId amount now) = s) ∧
    (caller = s.owner → tokenId ≤ 2 → amount = 0 →
      awardTokens s caller operator tokenId amount now = .error .InvalidAmount ∧
      runExcept s (awardTokens s caller operator tokenId amount now) = s) ∧
    (caller ≠ s.owner →
      setDecayRate s caller operator rate now = .error .Forbidden ∧
      runExcept s (setDecayRate s caller operator rate now) = s) ∧
    (caller = s.owner → 10000 < rate →
      setDecayRate s caller operator rate now = .error .InvalidRate ∧
      runExcept s (setDecayRate s caller operator rate now) = s) := by
  refine ⟨fun h => ?_, fun h1 h2 => ?_, fun h1 h2 h3 => ?_, fun h => ?_,
    fun h1 h2 => ?_⟩
  · have he : awardTokens s caller operator tokenId amount now = .error .Forbidden := by
      simp only [awardTokens]
      rw [if_pos h]
    exact ⟨he, by rw [he]; rfl⟩
  · have he : awardTokens s caller operator tokenId amount now
        = .error .InvalidAssetType := by
      simp only [awardTokens]
      rw [if_neg (not_not_intro h1), if_pos (by simp only [INNOVATION_TOKEN]; omega)]
    exact ⟨he, by rw [he]; rfl⟩
  · have he : awardTokens s caller operator tokenId amount now
        = .error .InvalidAmount := by
      simp only [awardTokens]
      rw [if_neg (not_not_intro h1),
        if_neg (not_not_intro (by simp only [INNOVATION_TOKEN]; omega)),
        if_pos (by omega)]
    exact ⟨he, by rw [he]; rfl⟩
  · have he : setDecayRate s caller operator rate now = .error .Forbidden := by
      simp only [setDecayRate]
      rw [if_pos h]
    exact ⟨he, by rw [he]; rfl⟩
  · have he : setDecayRate s caller operator rate now = .error .InvalidRate := by
      simp only [setDecayRate]
      rw [if_neg (not_not_intro h1), if_pos (by omega)]
    exact ⟨he, by rw [he]; rfl⟩

/-- Witness for C8: a non-owner award and an out-of-range rate change on
the concrete state both revert and leave it untouched. -/
theorem c8_errors_no_mutation_witness :
    (awardTokens sampleState 5 1 0 10 200 = .error .Forbidden ∧
      runExcept sampleState (awardTokens sampleState 5 1 0 10 200) = sampleState) ∧
    (setDecayRate sampleState 0 1 10001 200 = .error .InvalidRate ∧
      runExcept sampleState (setDecayRate sampleState 0 1 10001 200) = sampleState) :=
  ⟨(c8_errors_no_mutation sampleState 5 1 0 10 10001 200).1 (by decide),
   (c8_errors_no_mutation sampleState 0 1 0 10 10001 200).2.2.2.2 (by decide)
     (by decide)⟩

/-- A successful award produces exactly the commit-sequence state. -/
theorem awardTokens_ok_elim (s : State) (caller operator tokenId amount now : Nat)
    (s' : State) (hok : awardTokens s caller operator tokenId amount now = .ok s') :
    s' = awardCommit s operator tokenId amount now := by
  simp only [awardTokens] at hok
  split at hok
  · simp at hok
  split at hok
  · simp at hok
  split at hok
  · simp at hok
  injection hok with h
  exact h.symm

/-- Every award commit stores `now` as the `lastUpdate` of the operator (both
on the lazy-initialization branch and on the existing-profile branch). -/
theorem awardCommit_lastUpdate (s : State) (operator tokenId amount now : Nat) :
    ((awardCommit s operator tokenId amount now).operatorData operator).lastUpdate
      = now := by
  simp only [awardCommit]
  rw [setOperatorData_self]

/-- On an existing profile, the award commit leaves every sibling balance
slot of the operator untouched. -/
theorem awardCommit_sibling_balance (s : State)
    (operator tokenId amount now t : Nat)
    (hprof : (s.operatorData operator).lastUpdate ≠ 0) (ht : t ≠ tokenId) :
    balanceOf (awardCommit s operator tokenId amount now) operator t =
      balanceOf s operator t := by
  simp only [awardCommit]
  rw [if_neg hprof, setOperatorData_balances,
    _mint_balance_frame _ _ _ _ _ _ (Or.inr ht),
    _applyDecay_balance_frame _ _ _ _ _ _ (Or.inr ht)]

/-- C9: a successful award to an account with an existing decay profile
applies the decay commit only to the awarded asset type — the raw
balances of the sibling asset types are not reduced. -/
theorem c9_award_frames_siblings (s : State)
    (caller operator tokenId amount now : Nat) (s' : State)
    (hprof : (s.operatorData operator).lastUpdate ≠ 0)
    (hok : awardTokens s caller operator tokenId amount now = .ok s') :
    ∀ t, t ≠ tokenId → balanceOf s' operator t = balanceOf s operator t := by
  intro t ht
  rw [awardTokens_ok_elim s caller operator tokenId amount now s' hok]
  exact awardCommit_sibling_balance s operator tokenId amount now t hprof ht

/-- Witness for C9: awarding 50 units of token 0 leaves the token-1 raw
balance of the same operator untouched. -/
theorem c9_award_frames_siblings_witness :
    balanceOf (runExcept sampleState (awardTokens sampleState 0 1 0 50 86500)) 1 1 =
      balanceOf sampleState 1 1 :=
  c9_award_frames_siblings sampleState 0 1 0 50 86500
    (runExcept sampleState (awardTokens sampleState 0 1 0 50 86500)) (by decide) rfl 1
    (by decide)

/-- C10: a successful award sets the shared `lastUpdate` to `now` without
reconciling siblings, so immediately afterwards the effective balance of every
other asset type equals its raw balance — pending decay on siblings is
silently discarded; concretely, awarding token 0 raises the effective
balance of token 1 from 900 back to its raw 1000. -/
theorem c10_award_discards_sibling_decay (s : State)
    (caller operator tokenId amount now : Nat) (s' : State) (hnow : 0 < now)
    (hok : awardTokens s caller operator tokenId amount now = .ok s') :
    (∀ t, t ≠ tokenId →
      getEffectiveBalance s' operator t now = balanceOf s' operator t) ∧
    getEffectiveBalance sampleState 1 1 86500 = 900 ∧
    getEffectiveBalance (runExcept sampleState (awardTokens sampleState 0 1 0 50 86500))
      1 1 86500 = 1000 ∧
    balanceOf (runExcept sampleState (awardTokens sampleState 0 1 0 50 86500)) 1 1
      = 1000 := by
  refine ⟨fun t _ => ?_, by decide, by decide, by decide⟩
  rw [awardTokens_ok_elim s caller operator tokenId amount now s' hok]
  apply effective_days_zero
  · rw [awardCommit_lastUpdate]
    omega
  · rw [awardCommit_lastUpdate]
    simp

/-- Witness for C10: after the concrete award, the effective balance of the
sibling token equals its raw balance again. -/
theorem c10_award_discards_sibling_decay_witness :
    getEffectiveBalance (runExcept sampleState (awardTokens sampleState 0 1 0 50 86500))
      1 1 86500 =
    balanceOf (runExcept sampleState (awardTokens sampleState 0 1 0 50 86500)) 1 1 :=
  (c10_award_discards_sibling_decay sampleState 0 1 0 50 86500
    (runExcept sampleState (awardTokens sampleState 0 1 0 50 86500)) (by decide)
    rfl).1 1 (by decide)

end EnergyToken
